import Mathlib

/-!
Verification development for the msrest request-execution core: a shallow
embedding in Lean 4 of the policy-chain pipeline, the retry and redirect
decision logic, the credential-refresh-and-retry protocol, the streaming
response body iterator, and paged-collection iteration, together with
theorems settling the behavioural claims about those components.
-/

namespace Msrest

/-! ## Retry policy defaults (msrest/pipeline/requests.py, ClientRetryPolicy) -/

/-- Embeds `ClientRetryPolicy.safe_codes`:
`[i for i in range(500) if i != 408] + [501, 505]`. -/
def safe_codes : List Nat :=
  ((List.range 500).filter (fun i => decide (i ≠ 408))) ++ [501, 505]

/-- Embeds the default `status_forcelist` set in `ClientRetryPolicy.__init__`:
`[i for i in range(999) if i not in self.safe_codes]`. -/
def status_forcelist : List Nat :=
  (List.range 999).filter (fun i => decide (i ∉ safe_codes))

/-- Embeds the default `method_whitelist` set in `ClientRetryPolicy.__init__`. -/
def method_whitelist : List String :=
  ["HEAD", "TRACE", "GET", "PUT", "OPTIONS", "DELETE", "POST", "PATCH"]

/-! ## Redirect policy (msrest/pipeline/requests.py, ClientRedirectPolicy) -/

/-- A `requests.PreparedRequest` as far as the redirect decision reads it. -/
structure PreparedRequest where
  method : String

/-- A `requests.Response` as far as the redirect decision reads it. -/
structure RequestsResponse where
  status_code : Nat

/-- Embeds `ClientRedirectPolicy.check_redirect`: return `False` when the
status code is 301 or 302 and the method is not GET or HEAD, else `True`. -/
def check_redirect (resp : RequestsResponse) (request : PreparedRequest) : Bool :=
  if (resp.status_code = 301 ∨ resp.status_code = 302) ∧
      ¬ (request.method = "GET" ∨ request.method = "HEAD") then
    false
  else
    true

/-- Embeds the `wrapped_redirect` closure installed by
`RequestsHTTPSender._init_session`: consult `check_redirect` before each
re-issue, delegating to the underlying `resolve_redirects` generator
(modelled as the list of responses it would yield) when the redirect is
attempted, and yielding nothing when it is suppressed. -/
def wrapped_redirect (redirect_logic : List RequestsResponse)
    (resp : RequestsResponse) (req : PreparedRequest) : List RequestsResponse :=
  if check_redirect resp req then redirect_logic else []

/-! ## Pipeline and sans-IO policy runners (msrest/pipeline/__init__.py) -/

/-- One observable hook invocation during a pipeline run.  The index tags
which policy of the ordered list was invoked. -/
inductive PipelineEvent where
  | on_request (i : Nat)
  | sender_send
  | on_response (i : Nat)
deriving DecidableEq

/-- A `ClientRequest` as far as `Pipeline.run` touches it: the mutable
`pipeline_context` slot attached before the first node is invoked. -/
structure PipelineClientRequest (κ : Type) where
  method : String
  url : String
  pipeline_context : Option κ

/-- An `HTTPSender` for the pipeline model: `build_context` is the fresh
per-run context it hands out, `response` the response its terminal `send`
produces. -/
structure HTTPSenderModel (κ ρ : Type) where
  build_context : κ
  response : ρ

/-- The terminal sender node: its `send` performs the network call (recorded
as a `sender_send` event) and returns the sender response. -/
def senderSend (sender : HTTPSenderModel κ ρ) :
    List PipelineEvent → List PipelineEvent × ρ :=
  fun tr => (tr ++ [PipelineEvent.sender_send], sender.response)

/-- Embeds `_SansIOHTTPPolicyRunner.send` for the policy at index `i`:
invoke `on_request`, delegate to the `next` node, invoke `on_response`,
return the response from below. -/
def sansIORunnerSend (i : Nat)
    (next : List PipelineEvent → List PipelineEvent × ρ) :
    List PipelineEvent → List PipelineEvent × ρ :=
  fun tr =>
    let tr1 := tr ++ [PipelineEvent.on_request i]
    let r := next tr1
    (r.1 ++ [PipelineEvent.on_response i], r.2)

/-- Embeds the `next`-pointer wiring done by `Pipeline.__init__`: policy `i`
points at policy `i+1`, the last policy points at the sender, and an empty
policy list leaves the sender as the first node. -/
def chainSend (policies : List Nat) (sender : HTTPSenderModel κ ρ) :
    List PipelineEvent → List PipelineEvent × ρ :=
  match policies with
  | [] => senderSend sender
  | i :: rest => sansIORunnerSend i (chainSend rest sender)

/-- Embeds `Pipeline.run`: obtain a context from `build_context`, attach it
to the request, invoke the first node, and return what emerges.  The result
records the mutated request, the full event trace, and the response. -/
def Pipeline_run (policies : List Nat) (sender : HTTPSenderModel κ ρ)
    (request : PipelineClientRequest κ) :
    PipelineClientRequest κ × List PipelineEvent × ρ :=
  let request := { request with pipeline_context := some sender.build_context }
  let r := chainSend policies sender []
  (request, r.1, r.2)

/-! ## Python attribute lookup on sans-IO policies (msrest/pipeline) -/

/-- Outcome of a Python call that may fail attribute resolution. -/
inductive PyResult (ρ : Type) where
  | ok (r : ρ)
  | attributeError (missing : String)
deriving DecidableEq

/-- The method names defined by class `SansIOHTTPPolicy` itself
(msrest/pipeline/\_\_init\_\_.py): `on_request` and `on_response` only. -/
def SansIOHTTPPolicy_methods : List String := ["on_request", "on_response"]

/-- The resolvable method names of a `UserAgentPolicy` instance
(msrest/pipeline/universal.py): its own definitions followed by the
inherited `SansIOHTTPPolicy` ones. -/
def UserAgentPolicy_methods : List String :=
  ["user_agent", "add_user_agent", "on_request"] ++ SansIOHTTPPolicy_methods

/-- The resolvable method names of an `HTTPLogger` instance
(msrest/pipeline/universal.py): its own definitions followed by the
inherited `SansIOHTTPPolicy` ones. -/
def HTTPLogger_methods : List String :=
  ["on_request", "post_send"] ++ SansIOHTTPPolicy_methods

/-- Embeds `_SansIOHTTPPolicyRunner.send` at the attribute-resolution level:
it invokes `self._policy.on_request` and `self._policy.on_response` around
the next node, raising `AttributeError` if the wrapped policy lacks the
attribute, and otherwise returning the response from below. -/
def SansIOHTTPPolicyRunner_send (policy_methods : List String) (resp : ρ) :
    PyResult ρ :=
  if ¬ policy_methods.contains "on_request" then .attributeError "on_request"
  else if ¬ policy_methods.contains "on_response" then .attributeError "on_response"
  else .ok resp

/-- Embeds `_SansIOAsyncHTTPPolicyRunner.send` (msrest/pipeline/async_abc.py)
at the attribute-resolution level: it invokes `self._policy.prepare` and
`self._policy.post_send` around the next node, raising `AttributeError` if
the wrapped policy lacks the attribute. -/
def SansIOAsyncHTTPPolicyRunner_send (policy_methods : List String) (resp : ρ) :
    PyResult ρ :=
  if ¬ policy_methods.contains "prepare" then .attributeError "prepare"
  else if ¬ policy_methods.contains "post_send" then .attributeError "post_send"
  else .ok resp

/-! ## Credential-refresh-and-retry protocol
(msrest/pipeline/requests.py RequestsCredentialsPolicy.send and
msrest/service_client.py ServiceClient.send) -/

/-- Classification of the exceptions distinguished by the two nested
`try/except` ladders: `authRejection` is `oauth2.rfc6749.errors
.InvalidGrantError` or `oauth2.rfc6749.errors.TokenExpiredError`;
`oauthOther` is `requests.RequestException` or any other
`oauth2.rfc6749.errors.OAuth2Error`; `otherExc` is anything else. -/
inductive OAuthExc where
  | authRejection
  | oauthOther
  | otherExc
deriving DecidableEq

/-- Outcome of one `next.send` / `http_driver.send` attempt. -/
inductive Attempt (ρ : Type) where
  | ok (r : ρ)
  | raise (e : OAuthExc)
deriving DecidableEq

/-- A credentials object as the retry protocol observes it:
`session_injection` is false when `signed_session(session)` and
`refresh_session(session)` raise `TypeError`; `refresh_exc` is the
exception the credential refresh operation raises (`none` = it returns). -/
structure Credentials where
  session_injection : Bool
  refresh_exc : Option OAuthExc
deriving DecidableEq

/-- The terminal outcome of one invocation of the credential-retry
protocol. -/
inductive CredsOutcome (ρ : Type) where
  | response (r : ρ)
  | tokenExpiredError
  | clientRequestError
  | propagated (e : OAuthExc)
  | attributeError
deriving DecidableEq

/-- One run of the protocol: its outcome, how many send attempts were made,
and how many credential refreshes were performed. -/
structure CredsRun (ρ : Type) where
  outcome : CredsOutcome ρ
  sends : Nat
  refreshes : Nat
deriving DecidableEq

/-- The instance attributes assigned when `RequestsCredentialsPolicy` is
constructed: `__init__` stores the credentials in `self._creds` and the
inherited `HTTPPolicy.__init__` sets `self.next`.  No attribute named
`creds` is ever assigned. -/
def RequestsCredentialsPolicy_attributes : List String := ["_creds", "next"]

/-- Embeds `RequestsCredentialsPolicy.send`, with the two send attempts
below it abstracted as outcomes `o1` and `o2`.  The `TypeError` fallback
branches read `self.creds`, which resolves only if that attribute exists;
when it does not, the lookup raises `AttributeError` before any request is
sent. -/
def RequestsCredentialsPolicy_send (creds : Credentials) (o1 o2 : Attempt ρ) :
    CredsRun ρ :=
  if creds.session_injection ∨ RequestsCredentialsPolicy_attributes.contains "creds" then
    match o1 with
    | .ok r => ⟨.response r, 1, 0⟩
    | .raise .authRejection =>
      if creds.session_injection ∨ RequestsCredentialsPolicy_attributes.contains "creds" then
        match creds.refresh_exc with
        | some .authRejection => ⟨.tokenExpiredError, 1, 1⟩
        | some .oauthOther => ⟨.clientRequestError, 1, 1⟩
        | some .otherExc => ⟨.propagated .otherExc, 1, 1⟩
        | none =>
          match o2 with
          | .ok r => ⟨.response r, 2, 1⟩
          | .raise .authRejection => ⟨.tokenExpiredError, 2, 1⟩
          | .raise .oauthOther => ⟨.clientRequestError, 2, 1⟩
          | .raise .otherExc => ⟨.propagated .otherExc, 2, 1⟩
      else ⟨.attributeError, 1, 0⟩
    | .raise .oauthOther => ⟨.clientRequestError, 1, 0⟩
    | .raise .otherExc => ⟨.propagated .otherExc, 1, 0⟩
  else ⟨.attributeError, 0, 0⟩

/-- The member names resolvable on the `RequestsHTTPSender` instance that
`ServiceClient` constructs as its HTTP driver: the members of
`RequestsHTTPSender`, of `BasicRequestsHTTPSender` and of the `HTTPSender`
ABC (msrest/pipeline/requests.py and msrest/pipeline/\_\_init\_\_.py),
plus the instance attributes set in `__init__`.  This generation of the
driver defines `_configure_send`, but no member named
`configure_session`. -/
def RequestsHTTPSender_methods : List String :=
  ["config", "session", "_protocols", "_REQUESTS_KWARGS", "__init__",
    "_init_session", "_configure_send", "send", "__enter__", "__exit__",
    "close", "build_context"]

/-- Embeds `ServiceClient.send` (msrest/service_client.py).  The
`signed_session` block runs first (its `TypeError` fallback reads
`self.creds`, which `ServiceClient.__init__` does assign, so it proceeds
for every credentials object); then `kwargs =
http_driver.configure_session(**config)` resolves `configure_session` on
the `RequestsHTTPSender` driver, raising `AttributeError` when the lookup
fails, before the nested `try/except` ladder and its first send
attempt. -/
def ServiceClient_send (creds : Credentials) (o1 o2 : Attempt ρ) : CredsRun ρ :=
  if RequestsHTTPSender_methods.contains "configure_session" then
    match o1 with
    | .ok r => ⟨.response r, 1, 0⟩
    | .raise .authRejection =>
      match creds.refresh_exc with
      | some .authRejection => ⟨.tokenExpiredError, 1, 1⟩
      | some .oauthOther => ⟨.clientRequestError, 1, 1⟩
      | some .otherExc => ⟨.propagated .otherExc, 1, 1⟩
      | none =>
        match o2 with
        | .ok r => ⟨.response r, 2, 1⟩
        | .raise .authRejection => ⟨.tokenExpiredError, 2, 1⟩
        | .raise .oauthOther => ⟨.clientRequestError, 2, 1⟩
        | .raise .otherExc => ⟨.propagated .otherExc, 2, 1⟩
    | .raise .oauthOther => ⟨.clientRequestError, 1, 0⟩
    | .raise .otherExc => ⟨.propagated .otherExc, 1, 0⟩
  else ⟨.attributeError, 0, 0⟩

/-! ## Streaming body iterator
(msrest/pipeline/requests.py RequestsClientResponse.stream_download,
msrest/service_client.py ServiceClient.stream_download, and
msrest/pipeline/async_requests.py StreamDownloadGenerator) -/

/-- Fuelled worker for `iter_content`: repeatedly split off a block of
`chunk_size` elements.  The fuel is the content length, which suffices for
any positive block size. -/
def iter_content_go (chunk_size : Nat) : Nat → List α → List (List α)
  | 0, _ => []
  | _ + 1, [] => []
  | fuel + 1, x :: xs =>
    (x :: xs).take chunk_size
      :: iter_content_go chunk_size fuel ((x :: xs).drop chunk_size)

/-- Embeds `requests.Response.iter_content(chunk_size)` over an in-memory
body: the successive chunks of the body, each of the configured block size
except possibly the last. -/
def iter_content (chunk_size : Nat) (content : List α) : List (List α) :=
  iter_content_go chunk_size content.length content

/-- One run of the synchronous `stream_download` generator consumed to
exhaustion: the chunks it yielded, the arguments the progress callback was
invoked with, whether the underlying response was closed, and the
exception that escaped (if any). -/
structure StreamRun (α ε : Type) where
  yielded : List (List α)
  callback_calls : List (List α)
  closed : Bool
  raised : Option ε
deriving DecidableEq

/-- Embeds `RequestsClientResponse.stream_download` (the same loop appears
in `ServiceClient.stream_download`) driven over the chunk sequence the
underlying `iter_content` produces: under `contextlib.closing(response)`,
pull chunks; an empty chunk breaks out (end of stream); otherwise the
callback is invoked with the chunk before it is yielded, and a callback
exception escapes the generator.  Every exit path leaves the `with` block,
which closes the response. -/
def stream_download_run (callback : List α → Except ε Unit) :
    List (List α) → StreamRun α ε
  | [] => ⟨[], [], true, none⟩
  | chunk :: rest =>
    if chunk.isEmpty then ⟨[], [], true, none⟩
    else
      match callback chunk with
      | .error e => ⟨[], [chunk], true, some e⟩
      | .ok _ =>
        let r := stream_download_run callback rest
        ⟨chunk :: r.yielded, chunk :: r.callback_calls, r.closed, r.raised⟩

/-- Embeds `RequestsClientResponse.stream_download` applied to a response
body and block size: drive the generator over `iter_content`. -/
def stream_download (callback : List α → Except ε Unit) (content : List α)
    (chunk_size : Nat) : StreamRun α ε :=
  stream_download_run callback (iter_content chunk_size content)

/-- The state of a `StreamDownloadGenerator`: the chunks its
`iter_content_func` iterator has not yet produced, and whether
`self.response` has been closed. -/
structure StreamDownloadGenerator (α : Type) where
  remaining : List (List α)
  response_closed : Bool
deriving DecidableEq

/-- What one `StreamDownloadGenerator.__anext__` call does. -/
inductive AnextResult (α ε : Type) where
  | yield (chunk : List α)
  | stopAsyncIteration
  | raised (e : ε)
deriving DecidableEq

/-- Embeds `StreamDownloadGenerator.__anext__`
(msrest/pipeline/async_requests.py): pull the next chunk; an exhausted
iterator or an empty chunk closes the response and raises
`StopAsyncIteration`; a callback exception closes the response and
propagates; otherwise the chunk is returned. -/
def StreamDownloadGenerator_anext (user_callback : List α → Except ε Unit) :
    StreamDownloadGenerator α → AnextResult α ε × StreamDownloadGenerator α
  | ⟨[], _⟩ => (.stopAsyncIteration, ⟨[], true⟩)
  | ⟨chunk :: rest, closed⟩ =>
    if chunk.isEmpty then (.stopAsyncIteration, ⟨rest, true⟩)
    else
      match user_callback chunk with
      | .error e => (.raised e, ⟨rest, true⟩)
      | .ok _ => (.yield chunk, ⟨rest, closed⟩)

/-! ## Paged iteration (msrest/paging.py) -/

/-- The payload a page-fetch operation returns: the next-page token
(`nextLink`, `none` meaning no more pages) and the element batch (`value`,
which may be absent). -/
structure PageResponse (α : Type) where
  nextLink : Option String
  value : Option (List α)
deriving DecidableEq

/-- The mutable state of a `Paged` iterator: `next_link` (`some ""` after
`reset`, `none` once the last page has been fetched), `current_page` (which
Python may hold as `None`), and the cursor into the current batch. -/
structure PagedState (α : Type) where
  next_link : Option String
  current_page : Option (List α)
  current_page_iter_index : Nat
deriving DecidableEq

/-- Modelled from the spec: `serialization.Deserializer` (whose module is
not part of the embedded sources) applied to a `Paged` instance and a
fetched page payload deserializes the result into the page element batch
and the new token, i.e. it sets `current_page` from the payload `value`
and `next_link` from the payload `nextLink`. -/
def deserialize_page (s : PagedState α) (resp : PageResponse α) : PagedState α :=
  { s with next_link := resp.nextLink, current_page := resp.value }

/-- Embeds `Paged.reset`: set `next_link` to the first-page sentinel `""`,
`current_page` to `[]`, and the cursor to 0, whatever the prior state. -/
def Paged_reset (_ : PagedState α) : PagedState α :=
  ⟨some "", some [], 0⟩

/-- Embeds `Paged.advance_page`: `none` models `StopIteration` (end of
paging) when `next_link` is already `None`; otherwise the cursor is reset,
the fetch command is invoked with the current token, and the result is
deserialized into the state. -/
def Paged_advance_page (get_next : String → PageResponse α) (s : PagedState α) :
    Option (PagedState α) :=
  match s.next_link with
  | none => none
  | some link =>
    let s := { s with current_page_iter_index := 0 }
    some (deserialize_page s (get_next link))

/-- What one `Paged.__next__` call does: yield an element with the updated
state, raise `StopIteration`, or run out of the fuel bounding the
tail-recursion. -/
inductive PagedNextResult (α : Type) where
  | yield (a : α) (s : PagedState α)
  | stopIteration
  | fuelExhausted
deriving DecidableEq

/-- Embeds `Paged.__next__`: if `self.current_page` is truthy and the
cursor is in range, return the element there and advance the cursor;
otherwise call `advance_page` (whose `StopIteration` ends the iteration)
and retry.  The retry is fuelled; the Python original recurses
unboundedly. -/
def Paged_next (get_next : String → PageResponse α) :
    Nat → PagedState α → PagedNextResult α
  | 0, _ => .fuelExhausted
  | fuel + 1, s =>
    match s.current_page.bind
        (fun l => if l.isEmpty then none else l[s.current_page_iter_index]?) with
    | some a =>
      .yield a { s with current_page_iter_index := s.current_page_iter_index + 1 }
    | none =>
      match Paged_advance_page get_next s with
      | none => .stopIteration
      | some s2 => Paged_next get_next fuel s2

/-- Fully consume a `Paged` iterator: collect yielded elements until
`StopIteration`; `none` when either fuel bound is hit. -/
def Paged_to_list (get_next : String → PageResponse α) (step_fuel : Nat) :
    Nat → PagedState α → Option (List α)
  | 0, _ => none
  | n + 1, s =>
    match Paged_next get_next step_fuel s with
    | .fuelExhausted => none
    | .stopIteration => some []
    | .yield a s2 => (Paged_to_list get_next step_fuel n s2).map (a :: ·)

/-- The two-page fetch function of the paging claim: the first-page token
returns `nextLink = "page2"` with elements `["v1.0", "v1.1"]`, and
`"page2"` returns `nextLink = None` with elements `["v2.0", "v2.1"]`. -/
def examplePaging : String → PageResponse String :=
  fun link =>
    if link = "page2" then ⟨none, some ["v2.0", "v2.1"]⟩
    else ⟨some "page2", some ["v1.0", "v1.1"]⟩

/-! ## Helper lemmas -/

/-- Membership in the embedded `safe_codes` list. -/
theorem mem_safe_codes (s : Nat) :
    s ∈ safe_codes ↔ (s < 500 ∧ s ≠ 408) ∨ s = 501 ∨ s = 505 := by
  simp [safe_codes, List.mem_filter, List.mem_range, List.mem_append]

/-- Membership in the embedded default `status_forcelist`. -/
theorem mem_status_forcelist (s : Nat) :
    s ∈ status_forcelist ↔
      s < 999 ∧ (s = 408 ∨ (500 ≤ s ∧ s ≠ 501 ∧ s ≠ 505)) := by
  simp only [status_forcelist, List.mem_filter, List.mem_range,
    decide_eq_true_eq, mem_safe_codes]
  omega

/-- The sync policy never stores an attribute named `creds`. -/
theorem creds_attribute_lookup :
    "creds" ∉ RequestsCredentialsPolicy_attributes := by
  decide

/-- Unfolding `chainSend`: the trace grows by the forward hook pass, the
terminal send, and the reverse hook pass, and the sender response comes
back unchanged. -/
theorem chainSend_spec (policies : List Nat) (sender : HTTPSenderModel κ ρ)
    (tr : List PipelineEvent) :
    chainSend policies sender tr =
      (tr ++ policies.map PipelineEvent.on_request
          ++ [PipelineEvent.sender_send]
          ++ policies.reverse.map PipelineEvent.on_response,
        sender.response) := by
  induction policies generalizing tr with
  | nil => simp [chainSend, senderSend]
  | cons i rest ih =>
    simp only [chainSend, sansIORunnerSend, ih, List.map_cons, List.reverse_cons,
      List.map_append, List.map_nil]
    simp [List.append_assoc]

/-! ## Claim theorems -/

/-- C3 counterexample: the claim that a status is in the default
`status_forcelist` exactly when it is outside the set of 4xx codes other
than 408 together with 501 and 505 fails at status 200: 200 is none of
those, yet the code keeps 200 out of the forcelist (its `safe_codes`
excludes everything below 500, not only 4xx). -/
theorem C3_claim_fails_at_200 :
    ¬ (200 ∈ status_forcelist ↔
        ¬ ((400 ≤ 200 ∧ 200 < 500 ∧ 200 ≠ 408) ∨ 200 = 501 ∨ 200 = 505)) := by
  rw [mem_status_forcelist]
  omega

/-- C3 (amended): a status code s is in the default retryable status set
`ClientRetryPolicy.policy.status_forcelist` if and only if s is 408, 500,
502, 503, 504, or between 506 and 998; equivalently, every code of
0..998 is retryable except those below 500 other than 408, plus 501
and 505. -/
theorem C3_status_forcelist_default (s : Nat) :
    s ∈ status_forcelist ↔
      (s = 408 ∨ s = 500 ∨ s = 502 ∨ s = 503 ∨ s = 504
        ∨ (506 ≤ s ∧ s ≤ 998)) := by
  rw [mem_status_forcelist]
  omega

/-- C5: `ClientRedirectPolicy.check_redirect` returns `False` exactly when
the response status is 301 or 302 and the request method is neither GET
nor HEAD; in particular a 301 to a POST is suppressed while a 307 to a
POST is followed, and the sender-side `wrapped_redirect` accordingly
yields no redirect for the former and delegates for the latter. -/
theorem C5_check_redirect (resp : RequestsResponse) (req : PreparedRequest)
    (redirect_logic : List RequestsResponse) :
    (check_redirect resp req = false ↔
      ((resp.status_code = 301 ∨ resp.status_code = 302) ∧
        req.method ≠ "GET" ∧ req.method ≠ "HEAD"))
    ∧ check_redirect ⟨301⟩ ⟨"POST"⟩ = false
    ∧ check_redirect ⟨307⟩ ⟨"POST"⟩ = true
    ∧ wrapped_redirect redirect_logic ⟨301⟩ ⟨"POST"⟩ = []
    ∧ wrapped_redirect redirect_logic ⟨307⟩ ⟨"POST"⟩ = redirect_logic := by
  refine ⟨?_, by decide, by decide, ?_, ?_⟩
  · unfold check_redirect
    by_cases h : (resp.status_code = 301 ∨ resp.status_code = 302) ∧
        ¬ (req.method = "GET" ∨ req.method = "HEAD")
    · rw [if_pos h]
      push_neg at h
      simp [h]
    · rw [if_neg h]
      push_neg at h
      simp only [Bool.true_eq_false, false_iff]
      tauto
  · unfold wrapped_redirect
    rw [if_neg]
    decide
  · unfold wrapped_redirect
    rw [if_pos]
    decide

/-- C2: `Pipeline.run` attaches the fresh context obtained from the
sender `build_context` to the request, executes the `on_request` hooks in
list order, then the terminal sender send, then the `on_response` hooks in
reverse order (strict LIFO symmetry), and returns the response the sender
produced. -/
theorem C2_pipeline_run (policies : List Nat) (sender : HTTPSenderModel κ ρ)
    (request : PipelineClientRequest κ) :
    Pipeline_run policies sender request =
      ({ request with pipeline_context := some sender.build_context },
        policies.map PipelineEvent.on_request
          ++ [PipelineEvent.sender_send]
          ++ policies.reverse.map PipelineEvent.on_response,
        sender.response) := by
  simp [Pipeline_run, chainSend_spec]

/-- C4: running a `SansIOHTTPPolicy` (for example `UserAgentPolicy`)
through the asynchronous runner is not equivalent to the synchronous
runner: the sync runner resolves `on_request`/`on_response` and returns
the response, while the async runner looks up `prepare`, an attribute no
`SansIOHTTPPolicy` defines, and so raises `AttributeError` instead of
returning the same response. -/
theorem C4_async_runner_attribute_mismatch (r : ρ) :
    SansIOHTTPPolicyRunner_send UserAgentPolicy_methods r = PyResult.ok r
    ∧ SansIOAsyncHTTPPolicyRunner_send UserAgentPolicy_methods r
        = PyResult.attributeError "prepare"
    ∧ SansIOAsyncHTTPPolicyRunner_send SansIOHTTPPolicy_methods r
        = PyResult.attributeError "prepare"
    ∧ SansIOAsyncHTTPPolicyRunner_send HTTPLogger_methods r
        = PyResult.attributeError "prepare"
    ∧ SansIOAsyncHTTPPolicyRunner_send UserAgentPolicy_methods r
        ≠ SansIOHTTPPolicyRunner_send UserAgentPolicy_methods r := by
  refine ⟨rfl, rfl, rfl, rfl, ?_⟩
  intro h
  simp [SansIOHTTPPolicyRunner_send, SansIOAsyncHTTPPolicyRunner_send,
    UserAgentPolicy_methods, SansIOHTTPPolicy_methods] at h

/-- C10: `RequestsCredentialsPolicy.__init__` assigns `_creds` but never
`creds`, so for credentials whose `signed_session(session)` raises
`TypeError` the fallback branch of `send` raises `AttributeError` before
any request is sent (zero send attempts) and the session-injection
fallback path never completes a send. -/
theorem C10_creds_attribute_error (o1 o2 : Attempt ρ) (e : Option OAuthExc) :
    ("creds" ∉ RequestsCredentialsPolicy_attributes
      ∧ "_creds" ∈ RequestsCredentialsPolicy_attributes)
    ∧ RequestsCredentialsPolicy_send ⟨false, e⟩ o1 o2
        = ⟨CredsOutcome.attributeError, 0, 0⟩ := by
  refine ⟨by decide, ?_⟩
  simp [RequestsCredentialsPolicy_send, creds_attribute_lookup]

/-- C1: the claimed bounded refresh-retry ladder is what
`RequestsCredentialsPolicy.send` implements: at most two send attempts and
at most one refresh for every credentials object and transport outcomes; a
first-send auth-rejection triggers exactly one refresh and, when the
refresh returns, exactly one resend; an auth-rejection on the resend
raises `TokenExpiredError`; a first-send or resend success returns that
response with no further refresh.  `ServiceClient.send`, by contrast,
resolves `configure_session` on the `RequestsHTTPSender` driver it
constructs, and this generation of the driver defines no such member, so
every invocation raises `AttributeError` before the first send attempt
(zero sends, zero refreshes): the ladder outcomes the claim describes for
`ServiceClient.send` are unreachable in the frozen code. -/
theorem C1_credential_retry_protocol (creds : Credentials)
    (o1 o2 : Attempt ρ) (r : ρ) (e : Option OAuthExc) :
    (RequestsCredentialsPolicy_send creds o1 o2).sends ≤ 2
    ∧ (RequestsCredentialsPolicy_send creds o1 o2).refreshes ≤ 1
    ∧ (RequestsCredentialsPolicy_send ⟨true, e⟩ (.raise .authRejection) o2).refreshes = 1
    ∧ (RequestsCredentialsPolicy_send ⟨true, none⟩ (.raise .authRejection) o2).sends = 2
    ∧ RequestsCredentialsPolicy_send ⟨true, none⟩ (.raise .authRejection) (.raise .authRejection)
        = (⟨CredsOutcome.tokenExpiredError, 2, 1⟩ : CredsRun ρ)
    ∧ RequestsCredentialsPolicy_send ⟨true, e⟩ (.ok r) o2 = ⟨CredsOutcome.response r, 1, 0⟩
    ∧ RequestsCredentialsPolicy_send ⟨true, none⟩ (.raise .authRejection) (.ok r)
        = ⟨CredsOutcome.response r, 2, 1⟩
    ∧ "configure_session" ∉ RequestsHTTPSender_methods
    ∧ ServiceClient_send creds o1 o2
        = (⟨CredsOutcome.attributeError, 0, 0⟩ : CredsRun ρ)
    ∧ (ServiceClient_send creds o1 o2).sends = 0
    ∧ (ServiceClient_send creds o1 o2).refreshes = 0 := by
  obtain ⟨si, re⟩ := creds
  have hcase :
      ∀ (si : Bool) (re : Option OAuthExc) (o1 o2 : Attempt ρ),
        (RequestsCredentialsPolicy_send ⟨si, re⟩ o1 o2).sends ≤ 2
        ∧ (RequestsCredentialsPolicy_send ⟨si, re⟩ o1 o2).refreshes ≤ 1 := by
    intro si re o1 o2
    cases si <;>
      rcases o1 with _ | e1 <;>
      (try cases e1) <;>
      rcases re with _ | e3 <;>
      (try cases e3) <;>
      rcases o2 with _ | e2 <;>
      (try cases e2) <;>
      simp [RequestsCredentialsPolicy_send, creds_attribute_lookup]
  refine ⟨(hcase si re o1 o2).1, (hcase si re o1 o2).2, ?_, ?_, rfl, rfl, rfl,
    by decide, rfl, rfl, rfl⟩
  · rcases e with _ | e3
    · rcases o2 with _ | e2
      · rfl
      · cases e2 <;> rfl
    · cases e3 <;> rfl
  · rcases o2 with _ | e2
    · rfl
    · cases e2 <;> rfl

/-- Zero-content `iter_content` worker yields no chunks at any fuel. -/
theorem iter_content_go_nil (b : Nat) (fuel : Nat) :
    iter_content_go b fuel ([] : List α) = [] := by
  cases fuel <;> rfl

/-- Concatenating the chunks of the fuelled worker restores the content,
given positive block size and enough fuel. -/
theorem iter_content_go_join (b : Nat) (hb : 0 < b) :
    ∀ (fuel : Nat) (l : List α), l.length ≤ fuel →
      (iter_content_go b fuel l).flatten = l := by
  intro fuel
  induction fuel with
  | zero =>
    intro l hl
    rw [List.length_eq_zero.mp (Nat.le_zero.mp hl)]
    rfl
  | succ n ih =>
    intro l hl
    cases l with
    | nil => rfl
    | cons x xs =>
      rw [iter_content_go, List.flatten_cons, ih]
      · exact List.take_append_drop b (x :: xs)
      · simp only [List.length_drop, List.length_cons]
        simp only [List.length_cons] at hl
        omega

/-- Every chunk the fuelled worker yields is non-empty and no longer than
the block size, given positive block size. -/
theorem iter_content_go_chunk_bounds (b : Nat) (hb : 0 < b) :
    ∀ (fuel : Nat) (l : List α), ∀ c ∈ iter_content_go b fuel l,
      c ≠ [] ∧ c.length ≤ b := by
  intro fuel
  induction fuel with
  | zero => intro l c hc; simp [iter_content_go] at hc
  | succ n ih =>
    intro l c hc
    cases l with
    | nil => simp [iter_content_go_nil] at hc
    | cons x xs =>
      rw [iter_content_go] at hc
      rcases List.mem_cons.mp hc with rfl | hc2
      · refine ⟨?_, by simp [List.length_take]⟩
        simp [List.take_eq_nil_iff]
        omega
      · exact ih _ _ hc2

/-- Every chunk except possibly the last has length exactly the block
size. -/
theorem iter_content_go_full_chunks (b : Nat) :
    ∀ (fuel : Nat) (l : List α), ∀ c ∈ (iter_content_go b fuel l).dropLast,
      c.length = b := by
  intro fuel
  induction fuel with
  | zero => intro l c hc; simp [iter_content_go] at hc
  | succ n ih =>
    intro l c hc
    cases l with
    | nil => simp [iter_content_go_nil] at hc
    | cons x xs =>
      rw [iter_content_go] at hc
      rcases h2 : iter_content_go b n ((x :: xs).drop b) with _ | ⟨d, ds⟩
      · rw [h2] at hc
        simp at hc
      · rw [h2, List.dropLast_cons₂] at hc
        rcases List.mem_cons.mp hc with rfl | hc2
        · have hdrop : (x :: xs).drop b ≠ [] := by
            intro hd
            rw [hd, iter_content_go_nil] at h2
            exact List.noConfusion h2
          have hlen : b ≤ (x :: xs).length := by
            by_contra hbl
            push_neg at hbl
            exact hdrop (List.drop_eq_nil_of_le (Nat.le_of_lt hbl))
          simp only [List.length_cons] at hlen
          simp [List.length_take, List.length_cons]
          omega
        · exact ih _ _ (h2 ▸ hc2)

/-- A run of the synchronous streaming generator over non-empty chunks
with a callback that never raises yields every chunk, invokes the callback
once per chunk with that chunk, closes the response, and raises
nothing. -/
theorem stream_download_run_ok (cb : List α → Except ε Unit)
    (hcb : ∀ c, cb c = Except.ok ()) :
    ∀ chunks : List (List α), (∀ c ∈ chunks, c ≠ []) →
      stream_download_run cb chunks = ⟨chunks, chunks, true, none⟩ := by
  intro chunks
  induction chunks with
  | nil => intro _; rfl
  | cons c rest ih =>
    intro h
    have hc : ¬ (c.isEmpty = true) := by
      simp only [List.isEmpty_iff]
      exact h c (List.mem_cons_self c rest)
    rw [stream_download_run, if_neg hc, hcb c,
      ih (fun d hd => h d (List.mem_cons_of_mem c hd))]

/-- Every run of the synchronous streaming generator leaves the `with
contextlib.closing` block, closing the response. -/
theorem stream_download_run_closed (cb : List α → Except ε Unit) :
    ∀ chunks : List (List α), (stream_download_run cb chunks).closed = true := by
  intro chunks
  induction chunks with
  | nil => rfl
  | cons c rest ih =>
    rw [stream_download_run]
    by_cases hc : c.isEmpty = true
    · rw [if_pos hc]
    · rw [if_neg hc]
      cases hcb : cb c with
      | error e => rfl
      | ok u => simpa using ih

/-- C6: consuming `stream_download` to exhaustion with block size b > 0
yields exactly the `iter_content` chunking of the body: non-empty chunks
whose concatenation is the original byte sequence, each of length b except
possibly the last, with the callback invoked exactly once per yielded
chunk with that chunk. -/
theorem C6_stream_download_chunks (content : List α) (b : Nat) (hb : 0 < b)
    (cb : List α → Except ε Unit) (hcb : ∀ c, cb c = Except.ok ()) :
    (stream_download cb content b).yielded = iter_content b content
    ∧ (stream_download cb content b).yielded.flatten = content
    ∧ (∀ c ∈ (stream_download cb content b).yielded, c ≠ [] ∧ c.length ≤ b)
    ∧ (∀ c ∈ (stream_download cb content b).yielded.dropLast, c.length = b)
    ∧ (stream_download cb content b).callback_calls
        = (stream_download cb content b).yielded
    ∧ (stream_download cb content b).raised = none := by
  have hrun : stream_download cb content b
      = ⟨iter_content b content, iter_content b content, true, none⟩ := by
    unfold stream_download
    exact stream_download_run_ok cb hcb _
      (fun c hc => (iter_content_go_chunk_bounds b hb _ _ c hc).1)
  rw [hrun]
  refine ⟨rfl, ?_, ?_, ?_, rfl, rfl⟩
  · exact iter_content_go_join b hb _ _ (Nat.le_refl _)
  · exact fun c hc => iter_content_go_chunk_bounds b hb _ _ c hc
  · exact fun c hc => iter_content_go_full_chunks b _ _ c hc

/-- Witness for C6: block size 1 over the payload "abc" yields the chunks
["a", "b", "c"], whose concatenation is the payload, and the callback is
invoked once per chunk. -/
theorem C6_stream_download_chunks_witness :
    (stream_download (fun _ => Except.ok ()) "abc".toList 1
        : StreamRun Char Unit).yielded = [['a'], ['b'], ['c']]
    ∧ (stream_download (fun _ => Except.ok ()) "abc".toList 1
        : StreamRun Char Unit).yielded.flatten = "abc".toList
    ∧ (stream_download (fun _ => Except.ok ()) "abc".toList 1
        : StreamRun Char Unit).callback_calls
        = (stream_download (fun _ => Except.ok ()) "abc".toList 1
            : StreamRun Char Unit).yielded := by
  have h := C6_stream_download_chunks (ε := Unit) "abc".toList 1 (by decide)
    (fun _ => Except.ok ()) (fun _ => rfl)
  exact ⟨h.1.trans (by decide), h.2.1, h.2.2.2.2.1⟩

/-- C7: the streaming body iterator releases the connection on every
termination: the synchronous generator always exits its closing block with
the response closed, and in particular closes on a callback exception
while the exception still propagates; the asynchronous generator closes on
end-of-stream (exhausted iterator or empty chunk) and on a callback
exception (which propagates), and repeated termination is idempotent. -/
theorem C7_connection_release (cb : List α → Except ε Unit)
    (chunks rest : List (List α)) (c : List α) (e : ε) (sdg_closed : Bool)
    (hc : c ≠ []) (hcb : cb c = Except.error e) :
    (stream_download_run cb chunks).closed = true
    ∧ stream_download_run cb (c :: rest) = ⟨[], [c], true, some e⟩
    ∧ StreamDownloadGenerator_anext cb ⟨[], sdg_closed⟩
        = (AnextResult.stopAsyncIteration, ⟨[], true⟩)
    ∧ StreamDownloadGenerator_anext cb ⟨[] :: rest, sdg_closed⟩
        = (AnextResult.stopAsyncIteration, ⟨rest, true⟩)
    ∧ StreamDownloadGenerator_anext cb ⟨c :: rest, sdg_closed⟩
        = (AnextResult.raised e, ⟨rest, true⟩)
    ∧ StreamDownloadGenerator_anext cb
        (StreamDownloadGenerator_anext cb ⟨[], sdg_closed⟩).2
        = (AnextResult.stopAsyncIteration, ⟨[], true⟩) := by
  have hic : ¬ (c.isEmpty = true) := by
    simp only [List.isEmpty_iff]
    exact hc
  refine ⟨stream_download_run_closed cb chunks, ?_, rfl, rfl, ?_, rfl⟩
  · rw [stream_download_run, if_neg hic, hcb]
  · rw [StreamDownloadGenerator_anext, if_neg hic, hcb]

/-- Witness for C7: a callback that raises on the single chunk [1] leaves
the response closed, yields nothing, and propagates the exception, in both
the synchronous run and one asynchronous pull. -/
theorem C7_connection_release_witness :
    stream_download_run (fun _ => (Except.error 7 : Except Nat Unit)) [[1]]
      = ⟨[], [[1]], true, some 7⟩
    ∧ (stream_download_run (fun _ => (Except.error 7 : Except Nat Unit)) [[1]]).closed = true
    ∧ StreamDownloadGenerator_anext (fun _ => (Except.error 7 : Except Nat Unit))
        ⟨[[1]], false⟩ = (AnextResult.raised 7, ⟨[], true⟩) := by
  have h := C7_connection_release (fun _ => (Except.error 7 : Except Nat Unit))
    [[1]] [] [1] 7 false (by decide) rfl
  exact ⟨h.2.1, h.1, h.2.2.2.2.1⟩

/-- C8: with the two-page fetch function (first page `nextLink = "page2"`,
elements "v1.0","v1.1"; second page `nextLink = None`, elements
"v2.0","v2.1"), fully iterating the `Paged` iterator yields exactly
["v1.0","v1.1","v2.0","v2.1"] and terminates, and `reset` from any state
(in particular any mid-iteration state) restarts from the first page so a
subsequent full iteration yields the identical sequence. -/
theorem C8_paged_iteration (s : PagedState String) :
    Paged_to_list examplePaging 4 6 (Paged_reset s)
      = some ["v1.0", "v1.1", "v2.0", "v2.1"]
    ∧ Paged_to_list examplePaging 4 6 (⟨some "", some [], 0⟩ : PagedState String)
      = some ["v1.0", "v1.1", "v2.0", "v2.1"] := by
  constructor <;> rfl

/-- C9: a fetched page whose element batch (`value`) is `None` contributes
zero elements and raises no error: the very next pull continues from the
state holding the new token and a `None` batch; when the new token is
`None` the next pull ends the iteration with `StopIteration`; when it is a
link the iteration proceeds to fetch the next page. -/
theorem C9_none_value_page (get_next : String → PageResponse α) (fuel : Nat)
    (s : PagedState α) (link : String)
    (hexhausted : s.current_page.bind
        (fun l => if l.isEmpty then none
          else l[s.current_page_iter_index]?) = none)
    (hlink : s.next_link = some link)
    (hvalue : (get_next link).value = none) :
    Paged_next get_next (fuel + 1) s
      = Paged_next get_next fuel
          (⟨(get_next link).nextLink, none, 0⟩ : PagedState α)
    ∧ (∀ m : Nat,
        Paged_next get_next (m + 1) (⟨none, none, 0⟩ : PagedState α)
          = PagedNextResult.stopIteration)
    ∧ (∀ (m : Nat) (link2 : String),
        Paged_next get_next (m + 1) (⟨some link2, none, 0⟩ : PagedState α)
          = Paged_next get_next m
              (⟨(get_next link2).nextLink, (get_next link2).value, 0⟩
                : PagedState α)) := by
  refine ⟨?_, ?_, ?_⟩
  · rw [Paged_next, hexhausted]
    simp only [Paged_advance_page, hlink, deserialize_page, hvalue]
  · intro m
    rw [Paged_next]
    simp [Paged_advance_page]
  · intro m link2
    rw [Paged_next]
    simp [Paged_advance_page, deserialize_page]

/-- Witness for C9: a fetch whose only page has a `None` batch and a
`None` token yields an iteration that terminates immediately with zero
elements and no error. -/
theorem C9_none_value_page_witness :
    Paged_next (fun _ => (⟨none, none⟩ : PageResponse Nat)) 2
        (⟨some "", some [], 0⟩ : PagedState Nat)
      = Paged_next (fun _ => (⟨none, none⟩ : PageResponse Nat)) 1
          (⟨none, none, 0⟩ : PagedState Nat)
    ∧ Paged_next (fun _ => (⟨none, none⟩ : PageResponse Nat)) 1
        (⟨none, none, 0⟩ : PagedState Nat)
      = PagedNextResult.stopIteration := by
  have h := C9_none_value_page (fun _ => (⟨none, none⟩ : PageResponse Nat)) 1
    (⟨some "", some [], 0⟩ : PagedState Nat) "" rfl rfl rfl
  exact ⟨h.1, h.2.1 0⟩

end Msrest
